import Mathlib

/-!
Shallow embedding of the multi-tenant routing and template-distribution
subsystem of PROJECT-NorthStar (Django), covering:

* `template_service/database_router.py`: thread-local tenant context
  (`get_current_tenant` / `set_current_tenant` / `clear_current_tenant`),
  the `ComplianceRouter` (`db_for_read` / `db_for_write`) and
  `TenantMiddleware.__call__`;
* `template_service/tenant_utils.py`: `copy_framework_templates_to_tenant`
  and `copy_framework_controls`;
* the model-level uniqueness constraints on `templates.Framework`
  (`compliance_template_service/templates/models.py`).

Databases are modelled as explicit state: a central `MainDB` holding the
template hierarchy and a map from connection-alias strings to `TenantDB`
values holding the Company* tables.  The thread-local tenant binding is an
`Option String` threaded through a `World` record.  Python truthiness of
the stored slug (`if tenant:`) is modelled explicitly: an empty string is
falsy.  Exceptions raised by a single ORM `create` call are modelled by
failure oracles (`Framework → Bool`, `Control → Bool`): the oracle decides
whether that `create` raises, and the surrounding `except Exception`
blocks of the source are the branches that drop the item and continue.
-/

namespace NorthStar

/-! ### Template-catalog data model (`templates` app, central database).
Only the fields the distribution engine and the claims touch are carried;
`id` stands for the generated primary key. -/

structure Framework where
  id : Nat
  name : String
  full_name : String
  version : String
  description : String
  is_active : Bool
deriving DecidableEq, Repr

structure Domain where
  id : Nat
  framework_id : Nat
deriving DecidableEq, Repr

structure Category where
  id : Nat
  domain_id : Nat
deriving DecidableEq, Repr

structure Subcategory where
  id : Nat
  category_id : Nat
deriving DecidableEq, Repr

structure Control where
  id : Nat
  subcategory_id : Nat
  control_code : String
  title : String
  description : String
  objective : String
  control_type : String
  frequency : String
  risk_level : String
  sort_order : Nat
  is_active : Bool
deriving DecidableEq, Repr

structure MainDB where
  frameworks : List Framework
  domains : List Domain
  categories : List Category
  subcategories : List Subcategory
  controls : List Control
deriving DecidableEq, Repr

/-! ### Tenant-side data model (`company_compliance` app).
`CompanyControl.framework_id` is the direct link the copy path writes
(`CompanyControl.objects.create(framework=company_framework, ...)`), which
the tenant-side serializers and views also rely on
(`source='framework.name'`, `filterset_fields = ['framework', ...]`);
`subcategory_id` is the nullable `subcategory` foreign key of
`company_compliance/models.py`, which the copy path never sets.
Customization fields that keep their model defaults are omitted. -/

structure CompanyFramework where
  id : Nat
  name : String
  full_name : String
  version : String
  template_framework_id : Nat
  description : String
deriving DecidableEq, Repr

structure CompanyControl where
  id : Nat
  framework_id : Nat
  subcategory_id : Option Nat
  template_control_id : Nat
  control_code : String
  title : String
  description : String
  objective : String
  control_type : String
  frequency : String
  risk_level : String
  sort_order : Nat
deriving DecidableEq, Repr

structure TenantDB where
  company_frameworks : List CompanyFramework
  company_controls : List CompanyControl
  next_cf_id : Nat
  next_cc_id : Nat
deriving DecidableEq, Repr

def TenantDB.empty : TenantDB :=
  { company_frameworks := [], company_controls := [], next_cf_id := 1, next_cc_id := 1 }

/-- The whole mutable state: the central database, the tenant-side tables
reachable under each connection alias, and the thread-local tenant
binding (`_thread_locals.tenant`). -/
structure World where
  main : MainDB
  company : String → TenantDB
  ctx : Option String

/-! ### Thread-local tenant context (`database_router.py` lines 13-26). -/

def get_current_tenant (w : World) : Option String := w.ctx

def set_current_tenant (w : World) (tenant_slug : String) : World :=
  { w with ctx := some tenant_slug }

def clear_current_tenant (w : World) : World :=
  { w with ctx := none }

@[simp] theorem set_current_tenant_company (w : World) (t : String) :
    (set_current_tenant w t).company = w.company := rfl

@[simp] theorem clear_current_tenant_company (w : World) :
    (clear_current_tenant w).company = w.company := rfl

@[simp] theorem set_current_tenant_main (w : World) (t : String) :
    (set_current_tenant w t).main = w.main := rfl

@[simp] theorem clear_current_tenant_main (w : World) :
    (clear_current_tenant w).main = w.main := rfl

@[simp] theorem set_current_tenant_ctx (w : World) (t : String) :
    (set_current_tenant w t).ctx = some t := rfl

@[simp] theorem clear_current_tenant_ctx (w : World) :
    (clear_current_tenant w).ctx = none := rfl

/-! ### ComplianceRouter (`database_router.py` lines 39-59). -/

/-- Django app labels relevant to the router's dispatch on
`model._meta.app_label`. -/
inductive AppLabel
  | templates
  | company_compliance
  | other
deriving DecidableEq, Repr

/-- Embedding of `ComplianceRouter.db_for_read`: `templates` models go to `'default'`;
`company_compliance` models go to the tenant database when the
thread-local tenant is truthy (`if tenant:` — empty string is falsy) and
fall back to `'default'` otherwise; every other model goes to
`'default'`. -/
def db_for_read (app : AppLabel) (tenant : Option String) : String :=
  match app with
  | .templates => "default"
  | .company_compliance =>
    match tenant with
    | some t => if t = "" then "default" else t ++ "_compliance_db"
    | none => "default"
  | .other => "default"

/-- Embedding of `ComplianceRouter.db_for_write`: it delegates to `db_for_read`. -/
def db_for_write (app : AppLabel) (tenant : Option String) : String :=
  db_for_read app tenant

/-! ### TenantMiddleware (`database_router.py` lines 104-119).
`handler` stands for `self.get_response`; it receives the thread-local
binding, may rebind it, and either returns a response (`Except.ok`) or
raises (`Except.error`).  The source has no `try/finally`: the
`clear_current_tenant()` on line 117 runs only after a normal return from
`get_response`. -/
def middleware_call {ε ρ : Type} (extracted : Option String)
    (handler : Option String → Except ε ρ × Option String)
    (ctx : Option String) : Except ε ρ × Option String :=
  -- if tenant_slug: set_current_tenant(tenant_slug) else: clear_current_tenant()
  let ctx1 : Option String :=
    match extracted with
    | some t => if t = "" then none else some t
    | none => none
  match handler ctx1 with
  | (Except.ok r, _) =>
    -- clear_current_tenant() after the response is produced
    (Except.ok r, none)
  | (Except.error e, ctx2) =>
    -- get_response raised: line 117 is never reached, the binding stays
    (Except.error e, ctx2)

/-! ### Framework uniqueness (`compliance_template_service/templates/models.py`).
`Framework.name` is declared with field-level `unique=True` (lines 27-31),
and `Framework.Meta` additionally declares
`UniqueConstraint(fields=['name', 'version'])` (lines 60-65).  A row may
be inserted only when neither constraint is violated. -/

/-- Violation of the field-level `unique=True` on `Framework.name`. -/
def violates_name_unique (rows : List Framework) (f : Framework) : Bool :=
  rows.any fun g => g.name == f.name

/-- Violation of the `unique_framework_name_version` Meta constraint. -/
def violates_name_version_unique (rows : List Framework) (f : Framework) : Bool :=
  rows.any fun g => g.name == f.name && g.version == f.version

/-- Inserting `f` into the `frameworks` table succeeds iff no uniqueness
constraint is violated. -/
def framework_insert_allowed (rows : List Framework) (f : Framework) : Bool :=
  !violates_name_unique rows f && !violates_name_version_unique rows f

/-! ### Concrete inputs used by counterexamples and witnesses. -/

def fwSOX2024 : Framework :=
  { id := 1, name := "SOX", full_name := "Sarbanes-Oxley Act",
    version := "2024.1", description := "", is_active := true }

def fwSOX2025 : Framework :=
  { id := 2, name := "SOX", full_name := "Sarbanes-Oxley Act",
    version := "2025.1", description := "", is_active := true }

/-! ## Claim C5 — router resolution policy -/

/-- C5 counterexample: with the thread-local tenant bound to the empty
string (a bound, non-`None` value), a `company_compliance` model resolves
to `'default'`, not to `'<tenant>_compliance_db'` — the router tests
Python truthiness, not boundness, so the claim's "resolves to
'<tenant>_compliance_db' when a tenant is bound" fails at this state. -/
theorem C5_router_counterexample :
    (some ("") : Option String) ≠ none ∧
    db_for_read .company_compliance (some ("")) = "default" ∧
    db_for_read .company_compliance (some ("")) ≠ "" ++ "_compliance_db" := by
  refine ⟨by simp, rfl, by decide⟩

/-- C5 (amended): for every context state, a `templates` model resolves to
`'default'` regardless of the binding; a `company_compliance` model
resolves to `'<tenant>_compliance_db'` when a nonempty tenant slug is
bound, and falls back to `'default'` both when no tenant is bound and
when the bound slug is the empty string (Python truthiness); any other
model resolves to `'default'`; and `db_for_write` agrees with
`db_for_read`. -/
theorem C5_router_amended :
    ∀ (c : Option String) (t : String) (a : AppLabel), t ≠ "" →
      db_for_read .templates c = "default" ∧
      db_for_read .other c = "default" ∧
      db_for_read .company_compliance none = "default" ∧
      db_for_read .company_compliance (some ("")) = "default" ∧
      db_for_read .company_compliance (some t) = t ++ "_compliance_db" ∧
      db_for_write a c = db_for_read a c := by
  intro c t a ht
  refine ⟨rfl, rfl, rfl, rfl, ?_, rfl⟩
  simp [db_for_read, ht]

/-- Witness for C5_router_amended at the concrete slug "techcorp". -/
theorem C5_router_amended_witness :
    ("techcorp" : String) ≠ "" ∧
    (db_for_read .templates (some ("techcorp")) = "default" ∧
     db_for_read .other (some ("techcorp")) = "default" ∧
     db_for_read .company_compliance none = "default" ∧
     db_for_read .company_compliance (some ("")) = "default" ∧
     db_for_read .company_compliance (some ("techcorp")) = "techcorp" ++ "_compliance_db" ∧
     db_for_write .company_compliance (some ("techcorp"))
       = db_for_read .company_compliance (some ("techcorp"))) :=
  ⟨by decide,
   C5_router_amended (some ("techcorp")) ("techcorp") .company_compliance (by decide)⟩

/-! ## Claim C6 — middleware context clearing -/

/-- C6: a request that extracts tenant slug "techcorp" and whose
`get_response` raises leaves the thread-local binding set to "techcorp"
when `TenantMiddleware.__call__` exits: the clearing line sits after the
`get_response` call with no `try/finally`, so the exceptional exit path
never clears the binding — contradicting the spec's requirement that the
release be unconditional. -/
theorem C6_middleware_leak_on_exception :
    (middleware_call (ε := Unit) (ρ := Unit) (some ("techcorp"))
        (fun c => (Except.error (), c)) none).2 = some ("techcorp") ∧
    (some ("techcorp") : Option String) ≠ none := by
  exact ⟨rfl, by simp⟩

/-! ## Claim C10 — Framework uniqueness key -/

/-- C10 counterexample: two `Framework` rows with the same name "SOX" and
different versions ("2024.1" vs "2025.1") cannot coexist — inserting the
second violates the field-level `unique=True` on `Framework.name`, so
uniqueness is not keyed on the pair (name, version) alone as claimed. -/
theorem C10_name_unique_counterexample :
    fwSOX2024.name = fwSOX2025.name ∧
    fwSOX2024.version ≠ fwSOX2025.version ∧
    framework_insert_allowed [fwSOX2024] fwSOX2025 = false := by
  refine ⟨rfl, by decide, by decide⟩

/-- C10 (amended): `Framework` uniqueness is enforced on `name` alone
(field-level `unique=True`) in addition to the (name, version) Meta
constraint, and the name constraint subsumes the pair constraint: an
insert is allowed exactly when no existing row has the same name.  In
particular a second row with an identical (name, version) pair is
rejected, and so is one with the same name and a different version. -/
theorem C10_framework_uniqueness_amended :
    ∀ (rows : List Framework) (f : Framework),
      framework_insert_allowed rows f = true ↔ ∀ g ∈ rows, g.name ≠ f.name := by
  intro rows f
  constructor
  · intro h g hg
    have h1 : violates_name_unique rows f = false :=
      Bool.not_eq_true' .. |>.mp (Bool.and_eq_true .. |>.mp h).1
    rw [violates_name_unique, List.any_eq_false] at h1
    intro hname
    exact h1 g hg (beq_iff_eq.mpr hname)
  · intro h
    have h1 : violates_name_unique rows f = false := by
      rw [violates_name_unique, List.any_eq_false]
      intro g hg
      simpa using h g hg
    have h2 : violates_name_version_unique rows f = false := by
      rw [violates_name_version_unique, List.any_eq_false]
      intro g hg
      have hn : (g.name == f.name) = false := beq_eq_false_iff_ne.mpr (h g hg)
      simp [hn]
    simp [framework_insert_allowed, h1, h2]

/-! ## Template distribution engine (`template_service/tenant_utils.py`) -/

/-- The template Controls reachable from a Framework through the
`subcategory__category__domain__framework` lookup chain, restricted to
`is_active=True` (`tenant_utils.py` lines 94-99). -/
def controlUnderFramework (db : MainDB) (fw : Framework) (c : Control) : Bool :=
  db.subcategories.any fun sc =>
    sc.id == c.subcategory_id &&
    db.categories.any fun cat =>
      cat.id == sc.category_id &&
      db.domains.any fun d =>
        d.id == cat.domain_id && d.framework_id == fw.id

def template_controls_for (db : MainDB) (fw : Framework) : List Control :=
  db.controls.filter fun c => c.is_active && controlUnderFramework db fw c

/-- Point update of the alias-to-tenant-tables map. -/
def World.setCompany (w : World) (a : String) (tdb : TenantDB) : World :=
  { w with company := fun x => if x = a then tdb else w.company x }

@[simp] theorem setCompany_main (w : World) (a : String) (tdb : TenantDB) :
    (w.setCompany a tdb).main = w.main := rfl

@[simp] theorem setCompany_ctx (w : World) (a : String) (tdb : TenantDB) :
    (w.setCompany a tdb).ctx = w.ctx := rfl

theorem setCompany_company (w : World) (a : String) (tdb : TenantDB) :
    (w.setCompany a tdb).company a = tdb := by
  simp [World.setCompany]

theorem setCompany_company_ne (w : World) (a b : String) (tdb : TenantDB) (h : b ≠ a) :
    (w.setCompany a tdb).company b = w.company b := by
  simp [World.setCompany, h]

/-- Existence check used by `copy_framework_templates_to_tenant`
(lines 42-45): a `CompanyFramework` with the given (name, version). -/
def fw_exists (tdb : TenantDB) (nm v : String) : Bool :=
  tdb.company_frameworks.any fun cf => cf.name == nm && cf.version == v

/-- Existence check used by `copy_framework_controls` (lines 110-113): a
`CompanyControl` with the given framework link and control_code. -/
def ctrl_exists (tdb : TenantDB) (fid : Nat) (code : String) : Bool :=
  tdb.company_controls.any fun cc => cc.framework_id == fid && cc.control_code == code

/-- One iteration of the control-copy loop (`tenant_utils.py` lines
107-135), whose whole body sits in a `try/except Exception` block.  The
existence check reads the tenant tables under `al`, the alias the router
resolved from the ambient context (unchanged during the loop); `oc tc`
true means the `CompanyControl.objects.create` call raises, which the
`except` swallows, leaving the accumulator unchanged. -/
def copy_one_control (cf : CompanyFramework) (al : String) (oc : Control → Bool) :
    World × Nat → Control → World × Nat
  | (w, n), tc =>
    let tdb := w.company al
    if ctrl_exists tdb cf.id tc.control_code then (w, n)
    else if oc tc then (w, n)
    else
      let cc : CompanyControl :=
        { id := tdb.next_cc_id
          framework_id := cf.id
          subcategory_id := none
          template_control_id := tc.id
          control_code := tc.control_code
          title := tc.title
          description := tc.description
          objective := tc.objective
          control_type := tc.control_type
          frequency := tc.frequency
          risk_level := tc.risk_level
          sort_order := tc.sort_order }
      (w.setCompany al
        { tdb with company_controls := tdb.company_controls ++ [cc]
                   next_cc_id := tdb.next_cc_id + 1 }, n + 1)

structure ControlsResult where
  world : World
  controls_copied : Nat
  template_read_alias : String
  company_alias : String

/-- The restore step of `copy_framework_controls` (lines 104-105):
`if current_tenant: set_current_tenant(current_tenant)` — the captured
slug is re-bound only when truthy. -/
def restore_tenant (w : World) (current_tenant : Option String) : World :=
  match current_tenant with
  | some t => if t = "" then w else set_current_tenant w t
  | none => w

@[simp] theorem restore_tenant_company (w : World) (c : Option String) :
    (restore_tenant w c).company = w.company := by
  rcases c with _ | t
  · rfl
  · rw [restore_tenant]
    split <;> rfl

@[simp] theorem restore_tenant_main (w : World) (c : Option String) :
    (restore_tenant w c).main = w.main := by
  rcases c with _ | t
  · rfl
  · rw [restore_tenant]
    split <;> rfl

/-- Embedding of `copy_framework_controls` (`tenant_utils.py` lines 85-137): capture
the current tenant, clear the binding, read the template Controls (the
router resolves this `templates`-app query at the ambient — now cleared —
context), restore the binding when the captured slug is truthy, then copy
each control into the tenant tables under the alias the router resolves
for `company_compliance` at the restored context.  The two alias fields
record the routing decision taken for the template read and for the
company reads/writes. -/
def copy_framework_controls (w : World) (template_framework : Framework)
    (company_framework : CompanyFramework) (oc : Control → Bool) : ControlsResult :=
  -- current_tenant = get_current_tenant()
  let current_tenant := get_current_tenant w
  -- clear_current_tenant()
  let w1 := clear_current_tenant w
  let readAl := db_for_read .templates (get_current_tenant w1)
  let tcs := template_controls_for w1.main template_framework
  -- if current_tenant: set_current_tenant(current_tenant)
  let w2 := restore_tenant w1 current_tenant
  let companyAl := db_for_read .company_compliance (get_current_tenant w2)
  let res := tcs.foldl (copy_one_control company_framework companyAl oc) (w2, 0)
  { world := res.1, controls_copied := res.2,
    template_read_alias := readAl, company_alias := companyAl }

/-- Framework selection (`tenant_utils.py` lines 20-26): `None` means all
active template frameworks, an empty collection means none, and a
nonempty collection filters by id and `is_active`. -/
def select_frameworks (db : MainDB) (framework_ids : Option (List Nat)) : List Framework :=
  match framework_ids with
  | none => db.frameworks.filter fun f => f.is_active
  | some ids =>
    if ids.length = 0 then []
    else db.frameworks.filter fun f => ids.contains f.id && f.is_active

/-- One entry of the list returned by `copy_framework_templates_to_tenant`:
the dict `{'framework': company_framework, 'controls_copied': n}` appended
on line 65, holding the created `CompanyFramework` row. -/
structure DistEntry where
  framework : CompanyFramework
  controls_copied : Nat
deriving DecidableEq, Repr

/-- One iteration of the framework loop (`tenant_utils.py` lines 37-73),
whose body sits in a `try/except Exception` block: skip when a
`CompanyFramework` with the same (name, version) exists under the alias
the router resolves from the ambient context; `of framework` true means
`CompanyFramework.objects.create` raises (swallowed by the `except`,
nothing appended); otherwise create the row, copy its controls, and
append the report entry. -/
def copy_one_framework (of : Framework → Bool) (oc : Control → Bool) :
    World × List DistEntry → Framework → World × List DistEntry
  | (w, entries), framework =>
    let al := db_for_read .company_compliance (get_current_tenant w)
    let tdb := w.company al
    if fw_exists tdb framework.name framework.version then (w, entries)
    else if of framework then (w, entries)
    else
      let cf : CompanyFramework :=
        { id := tdb.next_cf_id
          name := framework.name
          full_name := framework.full_name
          version := framework.version
          template_framework_id := framework.id
          description := framework.description }
      let w1 := w.setCompany al
        { tdb with company_frameworks := tdb.company_frameworks ++ [cf]
                   next_cf_id := tdb.next_cf_id + 1 }
      let r := copy_framework_controls w1 framework cf oc
      (r.world, entries ++ [{ framework := cf, controls_copied := r.controls_copied }])

def process_frameworks (w : World) (fs : List Framework)
    (of : Framework → Bool) (oc : Control → Bool) : World × List DistEntry :=
  fs.foldl (copy_one_framework of oc) (w, [])

structure DistResult where
  world : World
  copied_frameworks : List DistEntry

/-- Embedding of `copy_framework_templates_to_tenant` (`tenant_utils.py` lines 12-81):
clear the binding, select the template frameworks from the central
database, bind the tenant, run the framework loop inside `try`, and in
`finally` clear the binding again; return the accumulated
`copied_frameworks` list. -/
def copy_framework_templates_to_tenant (w : World) (tenant_slug : String)
    (framework_ids : Option (List Nat))
    (of : Framework → Bool) (oc : Control → Bool) : DistResult :=
  let w0 := clear_current_tenant w
  let frameworks := select_frameworks w0.main framework_ids
  let w1 := set_current_tenant w0 tenant_slug
  let res := process_frameworks w1 frameworks of oc
  -- finally: clear_current_tenant()
  { world := clear_current_tenant res.1, copied_frameworks := res.2 }

/-- Variant modelling an exception the per-item `except Exception` does
not catch (for example the queryset iteration itself failing, or a
`SystemExit`): the framework loop stops after `fuel` items and the
exception propagates, but the `finally` block still runs.  Returns the
world after the `finally` and whether an exception propagated. -/
def copy_framework_templates_fatal (w : World) (tenant_slug : String)
    (framework_ids : Option (List Nat))
    (of : Framework → Bool) (oc : Control → Bool) (fuel : Nat) : World × Bool :=
  let w0 := clear_current_tenant w
  let frameworks := select_frameworks w0.main framework_ids
  let w1 := set_current_tenant w0 tenant_slug
  let res := process_frameworks w1 (frameworks.take fuel) of oc
  -- finally: clear_current_tenant(), on the exceptional exit path too
  (clear_current_tenant res.1, fuel < frameworks.length)

/-- Failure oracles for the runs in which no `create` call raises. -/
def noFailFw : Framework → Bool := fun _ => false

def noFailCtrl : Control → Bool := fun _ => false

/-! ### Preservation lemmas for the control-copy loop. -/

theorem copy_one_control_ctx (cf : CompanyFramework) (al : String) (oc : Control → Bool)
    (acc : World × Nat) (tc : Control) :
    ((copy_one_control cf al oc acc tc).1).ctx = acc.1.ctx := by
  rcases acc with ⟨w, n⟩
  simp only [copy_one_control]
  split
  · rfl
  · split <;> rfl

theorem copy_one_control_main (cf : CompanyFramework) (al : String) (oc : Control → Bool)
    (acc : World × Nat) (tc : Control) :
    ((copy_one_control cf al oc acc tc).1).main = acc.1.main := by
  rcases acc with ⟨w, n⟩
  simp only [copy_one_control]
  split
  · rfl
  · split <;> rfl

theorem copy_one_control_cfws (cf : CompanyFramework) (al : String) (oc : Control → Bool)
    (acc : World × Nat) (tc : Control) (a : String) :
    (((copy_one_control cf al oc acc tc).1).company a).company_frameworks
      = ((acc.1.company a).company_frameworks) := by
  rcases acc with ⟨w, n⟩
  simp only [copy_one_control]
  split
  · rfl
  · split
    · rfl
    · by_cases h : a = al <;> simp [World.setCompany, h]

theorem foldl_ctrl_ctx (cf : CompanyFramework) (al : String) (oc : Control → Bool) :
    ∀ (cs : List Control) (acc : World × Nat),
      ((cs.foldl (copy_one_control cf al oc) acc).1).ctx = acc.1.ctx := by
  intro cs
  induction cs with
  | nil => intro acc; rfl
  | cons c cs ih =>
    intro acc
    rw [List.foldl_cons, ih, copy_one_control_ctx]

theorem foldl_ctrl_main (cf : CompanyFramework) (al : String) (oc : Control → Bool) :
    ∀ (cs : List Control) (acc : World × Nat),
      ((cs.foldl (copy_one_control cf al oc) acc).1).main = acc.1.main := by
  intro cs
  induction cs with
  | nil => intro acc; rfl
  | cons c cs ih =>
    intro acc
    rw [List.foldl_cons, ih, copy_one_control_main]

theorem foldl_ctrl_cfws (cf : CompanyFramework) (al : String) (oc : Control → Bool) :
    ∀ (cs : List Control) (acc : World × Nat) (a : String),
      (((cs.foldl (copy_one_control cf al oc) acc).1).company a).company_frameworks
        = ((acc.1.company a).company_frameworks) := by
  intro cs
  induction cs with
  | nil => intro acc a; rfl
  | cons c cs ih =>
    intro acc a
    rw [List.foldl_cons, ih, copy_one_control_cfws]

/-- What the restore step does to a binding that was cleared just before:
the captured slug is re-bound only when truthy. -/
def pythonRestore : Option String → Option String
  | some t => if t = "" then none else some t
  | none => none

theorem restore_tenant_ctx_of_clear (w : World) (c : Option String) :
    (restore_tenant (clear_current_tenant w) c).ctx = pythonRestore c := by
  rcases c with _ | t
  · rfl
  · by_cases ht : t = "" <;> simp [restore_tenant, pythonRestore, ht]

theorem copy_framework_controls_ctx (w : World) (fw : Framework)
    (cf : CompanyFramework) (oc : Control → Bool) :
    (copy_framework_controls w fw cf oc).world.ctx = pythonRestore w.ctx := by
  simp only [copy_framework_controls]
  rw [foldl_ctrl_ctx]
  exact restore_tenant_ctx_of_clear w (get_current_tenant w)

theorem copy_framework_controls_main (w : World) (fw : Framework)
    (cf : CompanyFramework) (oc : Control → Bool) :
    (copy_framework_controls w fw cf oc).world.main = w.main := by
  simp only [copy_framework_controls]
  rw [foldl_ctrl_main, restore_tenant_main]
  rfl

theorem copy_framework_controls_cfws (w : World) (fw : Framework)
    (cf : CompanyFramework) (oc : Control → Bool) (a : String) :
    ((copy_framework_controls w fw cf oc).world.company a).company_frameworks
      = ((w.company a).company_frameworks) := by
  simp only [copy_framework_controls]
  rw [foldl_ctrl_cfws, restore_tenant_company]
  rfl

/-! ## Claim C1 — central read while the tenant is bound for writes -/

/-- C1: when `copy_framework_controls` runs with a (truthy) tenant slug
bound, the template-Controls query is routed to `'default'` (the context
is cleared around the sub-read), while the company reads/writes of the
loop are routed to `'<tenant>_compliance_db'` — the context is restored
for the writes, and on exit the binding is back to the original tenant. -/
theorem C1_central_read_tenant_write :
    ∀ (w : World) (fw : Framework) (cf : CompanyFramework) (oc : Control → Bool)
      (t : String), w.ctx = some t → t ≠ "" →
      (copy_framework_controls w fw cf oc).template_read_alias = "default" ∧
      (copy_framework_controls w fw cf oc).company_alias = t ++ "_compliance_db" ∧
      (copy_framework_controls w fw cf oc).world.ctx = some t := by
  intro w fw cf oc t hc ht
  refine ⟨rfl, ?_, ?_⟩
  · simp [copy_framework_controls, restore_tenant, get_current_tenant, hc, ht, db_for_read]
  · rw [copy_framework_controls_ctx, hc]
    simp [pythonRestore, ht]

def mainDB1 : MainDB :=
  { frameworks := [fwSOX2024], domains := [], categories := [],
    subcategories := [], controls := [] }

def cfSOX : CompanyFramework :=
  { id := 1, name := "SOX", full_name := "Sarbanes-Oxley Act",
    version := "2024.1", template_framework_id := 1, description := "" }

def wC1 : World :=
  { main := mainDB1, company := fun _ => TenantDB.empty, ctx := some ("techcorp") }

/-- Witness for C1 at the concrete tenant "techcorp". -/
theorem C1_central_read_tenant_write_witness :
    wC1.ctx = some ("techcorp") ∧ ("techcorp" : String) ≠ "" ∧
    ((copy_framework_controls wC1 fwSOX2024 cfSOX noFailCtrl).template_read_alias = "default" ∧
     (copy_framework_controls wC1 fwSOX2024 cfSOX noFailCtrl).company_alias
        = "techcorp" ++ "_compliance_db" ∧
     (copy_framework_controls wC1 fwSOX2024 cfSOX noFailCtrl).world.ctx = some ("techcorp")) :=
  ⟨rfl, by decide,
   C1_central_read_tenant_write wC1 fwSOX2024 cfSOX noFailCtrl ("techcorp") rfl (by decide)⟩

/-! ## Claim C4 — None selects all active, empty selects nothing -/

/-- C4: `framework_ids = None` selects exactly the `is_active` template
frameworks, an empty collection selects nothing, and a distribution call
with the empty collection leaves every tenant database untouched (zero
`CompanyFramework` rows created) and returns the empty report. -/
theorem C4_none_vs_empty :
    ∀ (db : MainDB) (w : World) (t : String) (of : Framework → Bool) (oc : Control → Bool),
      select_frameworks db none = db.frameworks.filter (fun f => f.is_active) ∧
      select_frameworks db (some []) = [] ∧
      (copy_framework_templates_to_tenant w t (some []) of oc).world.company = w.company ∧
      (copy_framework_templates_to_tenant w t (some []) of oc).copied_frameworks = [] := by
  intro db w t of oc
  exact ⟨rfl, rfl, rfl, rfl⟩

/-! ## Claim C7 — tenant context cleared when the engine exits -/

/-- C7: whatever the initial state, selection, and per-item failures, and
also on the exceptional exit path (an error the per-item handlers do not
catch, aborting the loop), `get_current_tenant` returns none immediately
after `copy_framework_templates_to_tenant`: the `finally` block clears
the binding on every exit. -/
theorem C7_context_cleared_on_exit :
    ∀ (w : World) (t : String) (fids : Option (List Nat)) (of : Framework → Bool)
      (oc : Control → Bool) (fuel : Nat),
      get_current_tenant (copy_framework_templates_to_tenant w t fids of oc).world = none ∧
      get_current_tenant (copy_framework_templates_fatal w t fids of oc fuel).1 = none := by
  intro w t fids of oc fuel
  exact ⟨rfl, rfl⟩

/-! ## Claim C3 — shape of the returned report (counterexample part) -/

def wDist : World :=
  { main := mainDB1, company := fun _ => TenantDB.empty, ctx := none }

/-- C3 counterexample: running distribution twice for tenant "acme" with
`framework_ids = None`, the second call still selects one template
framework but returns an empty list — the returned value has no entry for
the skipped framework (and no `skipped`/`error` fields at all), so it is
not "an ordered list containing one entry for every selected framework",
and a second run does not "report every framework as skipped". -/
theorem C3_report_counterexample :
    (select_frameworks
        (copy_framework_templates_to_tenant wDist ("acme") none noFailFw noFailCtrl).world.main
        none).length = 1 ∧
    (copy_framework_templates_to_tenant
        (copy_framework_templates_to_tenant wDist ("acme") none noFailFw noFailCtrl).world
        "acme" none noFailFw noFailCtrl).copied_frameworks = [] := by
  exact ⟨by decide, by decide⟩

/-! ### Invariants of the framework loop.
During one engine run the binding is `some t` throughout when the slug
`t` is truthy; when `t = ""` the restore step of the first created
framework drops it to `none` — either way the router keeps resolving
`company_compliance` to the same alias, `tenantAlias t`. -/

def tenantAlias (t : String) : String :=
  if t = "" then "default" else t ++ "_compliance_db"

def ctx_ok (t : String) (c : Option String) : Prop :=
  c = some t ∨ (t = "" ∧ c = none)

theorem db_for_read_company_ctx_ok {t : String} {c : Option String} (h : ctx_ok t c) :
    db_for_read .company_compliance c = tenantAlias t := by
  rcases h with h | ⟨ht, h⟩
  · subst h; rfl
  · subst ht; subst h; rfl

theorem pythonRestore_ctx_ok {t : String} {c : Option String} (h : ctx_ok t c) :
    ctx_ok t (pythonRestore c) := by
  rcases h with h | ⟨ht, h⟩
  · subst h
    by_cases ht : t = ""
    · exact Or.inr ⟨ht, by simp [pythonRestore, ht]⟩
    · exact Or.inl (by simp [pythonRestore, ht])
  · subst ht; subst h
    exact Or.inr ⟨rfl, rfl⟩

theorem copy_one_framework_main (of : Framework → Bool) (oc : Control → Bool)
    (acc : World × List DistEntry) (f : Framework) :
    ((copy_one_framework of oc acc f).1).main = acc.1.main := by
  rcases acc with ⟨w, es⟩
  simp only [copy_one_framework]
  split
  · rfl
  · split
    · rfl
    · rw [copy_framework_controls_main]
      rfl

theorem copy_one_framework_ctx_ok {t : String} (of : Framework → Bool) (oc : Control → Bool)
    (acc : World × List DistEntry) (f : Framework) (h : ctx_ok t acc.1.ctx) :
    ctx_ok t ((copy_one_framework of oc acc f).1).ctx := by
  rcases acc with ⟨w, es⟩
  simp only [copy_one_framework]
  split
  · exact h
  · split
    · exact h
    · rw [copy_framework_controls_ctx]
      exact pythonRestore_ctx_ok h

theorem copy_one_framework_fw_exists_mono (of : Framework → Bool) (oc : Control → Bool)
    (acc : World × List DistEntry) (f : Framework) (a : String) (nm v : String)
    (h : fw_exists (acc.1.company a) nm v = true) :
    fw_exists (((copy_one_framework of oc acc f).1).company a) nm v = true := by
  rcases acc with ⟨w, es⟩
  simp only [copy_one_framework]
  split
  · exact h
  · split
    · exact h
    · rw [show ∀ (w' : World), fw_exists (w'.company a) nm v
            = ((w'.company a).company_frameworks.any fun cf => cf.name == nm && cf.version == v)
          from fun _ => rfl,
        copy_framework_controls_cfws]
      by_cases ha : a = db_for_read .company_compliance (get_current_tenant w)
      · subst ha
        rw [fw_exists] at h
        simp [World.setCompany, List.any_append, h]
      · simpa [World.setCompany, ha, fw_exists] using h

theorem foldl_fw_main (of : Framework → Bool) (oc : Control → Bool) :
    ∀ (fs : List Framework) (acc : World × List DistEntry),
      ((fs.foldl (copy_one_framework of oc) acc).1).main = acc.1.main := by
  intro fs
  induction fs with
  | nil => intro acc; rfl
  | cons g gs ih =>
    intro acc
    rw [List.foldl_cons, ih, copy_one_framework_main]

theorem foldl_fw_ctx_ok {t : String} (of : Framework → Bool) (oc : Control → Bool) :
    ∀ (fs : List Framework) (acc : World × List DistEntry), ctx_ok t acc.1.ctx →
      ctx_ok t ((fs.foldl (copy_one_framework of oc) acc).1).ctx := by
  intro fs
  induction fs with
  | nil => intro acc h; exact h
  | cons g gs ih =>
    intro acc h
    rw [List.foldl_cons]
    exact ih _ (copy_one_framework_ctx_ok of oc acc g h)

theorem foldl_fw_exists_mono (of : Framework → Bool) (oc : Control → Bool) :
    ∀ (fs : List Framework) (acc : World × List DistEntry) (a nm v : String),
      fw_exists (acc.1.company a) nm v = true →
      fw_exists (((fs.foldl (copy_one_framework of oc) acc).1).company a) nm v = true := by
  intro fs
  induction fs with
  | nil => intro acc a nm v h; exact h
  | cons g gs ih =>
    intro acc a nm v h
    rw [List.foldl_cons]
    exact ih _ a nm v (copy_one_framework_fw_exists_mono of oc acc g a nm v h)

theorem copy_one_framework_self_present {t : String} (of : Framework → Bool)
    (oc : Control → Bool) (acc : World × List DistEntry) (f : Framework)
    (hctx : ctx_ok t acc.1.ctx) :
    fw_exists (((copy_one_framework of oc acc f).1).company (tenantAlias t))
        f.name f.version = true ∨ of f = true := by
  rcases acc with ⟨w, es⟩
  have hal : db_for_read .company_compliance (get_current_tenant w) = tenantAlias t :=
    db_for_read_company_ctx_ok hctx
  simp only [copy_one_framework, hal]
  split
  · exact Or.inl (by assumption)
  · split
    · exact Or.inr (by assumption)
    · refine Or.inl ?_
      rw [show ∀ (w' : World), fw_exists (w'.company (tenantAlias t)) f.name f.version
            = ((w'.company (tenantAlias t)).company_frameworks.any
                fun cf => cf.name == f.name && cf.version == f.version)
          from fun _ => rfl,
        copy_framework_controls_cfws]
      simp [World.setCompany, List.any_append]

theorem process_presence {t : String} (of : Framework → Bool) (oc : Control → Bool) :
    ∀ (fs : List Framework) (acc : World × List DistEntry), ctx_ok t acc.1.ctx →
      ∀ f ∈ fs,
        fw_exists (((fs.foldl (copy_one_framework of oc) acc).1).company (tenantAlias t))
          f.name f.version = true ∨ of f = true := by
  intro fs
  induction fs with
  | nil => intro acc _ f hf; cases hf
  | cons g gs ih =>
    intro acc hctx f hf
    rw [List.foldl_cons]
    rcases List.mem_cons.mp hf with rfl | hf'
    · rcases copy_one_framework_self_present of oc acc f hctx with h | h
      · exact Or.inl (foldl_fw_exists_mono of oc gs _ _ _ _ h)
      · exact Or.inr h
    · exact ih _ (copy_one_framework_ctx_ok of oc acc g hctx) f hf'

theorem copy_one_framework_noop {t : String} (of : Framework → Bool) (oc : Control → Bool)
    (acc : World × List DistEntry) (f : Framework) (hctx : ctx_ok t acc.1.ctx)
    (h : fw_exists (acc.1.company (tenantAlias t)) f.name f.version = true ∨ of f = true) :
    copy_one_framework of oc acc f = acc := by
  rcases acc with ⟨w, es⟩
  have hal : db_for_read .company_compliance (get_current_tenant w) = tenantAlias t :=
    db_for_read_company_ctx_ok hctx
  simp only [copy_one_framework, hal]
  rcases h with h | h
  · rw [if_pos h]
  · by_cases hex : fw_exists (w.company (tenantAlias t)) f.name f.version
    · rw [if_pos hex]
    · rw [if_neg hex, if_pos h]

theorem process_identity {t : String} (of : Framework → Bool) (oc : Control → Bool) :
    ∀ (fs : List Framework) (acc : World × List DistEntry), ctx_ok t acc.1.ctx →
      (∀ f ∈ fs,
        fw_exists (acc.1.company (tenantAlias t)) f.name f.version = true ∨ of f = true) →
      fs.foldl (copy_one_framework of oc) acc = acc := by
  intro fs
  induction fs with
  | nil => intro acc _ _; rfl
  | cons g gs ih =>
    intro acc hctx h
    rw [List.foldl_cons, copy_one_framework_noop of oc acc g hctx (h g (List.mem_cons_self g gs))]
    exact ih acc hctx fun f hf => h f (List.mem_cons_of_mem g hf)

/-- Unfolded normal form of the engine used by the proofs below. -/
theorem cftt_eq (w : World) (t : String) (fids : Option (List Nat))
    (of : Framework → Bool) (oc : Control → Bool) :
    copy_framework_templates_to_tenant w t fids of oc =
      { world := clear_current_tenant
          ((select_frameworks w.main fids).foldl (copy_one_framework of oc)
            (set_current_tenant (clear_current_tenant w) t, [])).1,
        copied_frameworks :=
          ((select_frameworks w.main fids).foldl (copy_one_framework of oc)
            (set_current_tenant (clear_current_tenant w) t, [])).2 } := rfl

/-- Running the engine a second time with the same arguments changes
nothing: every selected framework either already has its (name, version)
row in the tenant tables after the first run, or its create raises again;
either way the second loop is the identity and appends no entry. -/
theorem distribute_twice (w : World) (t : String) (fids : Option (List Nat))
    (of : Framework → Bool) (oc : Control → Bool) :
    copy_framework_templates_to_tenant
        (copy_framework_templates_to_tenant w t fids of oc).world t fids of oc =
      { world := (copy_framework_templates_to_tenant w t fids of oc).world,
        copied_frameworks := [] } := by
  rcases hP : (select_frameworks w.main fids).foldl (copy_one_framework of oc)
      (set_current_tenant (clear_current_tenant w) t, []) with ⟨w2, es2⟩
  have hr1 : copy_framework_templates_to_tenant w t fids of oc =
      { world := clear_current_tenant w2, copied_frameworks := es2 } := by
    rw [cftt_eq, hP]
  have hmain : w2.main = w.main := by
    have := foldl_fw_main of oc (select_frameworks w.main fids)
      (set_current_tenant (clear_current_tenant w) t, [])
    rw [hP] at this
    exact this
  have hpres : ∀ f ∈ select_frameworks w.main fids,
      fw_exists (w2.company (tenantAlias t)) f.name f.version = true ∨ of f = true := by
    have := process_presence (t := t) of oc (select_frameworks w.main fids)
      (set_current_tenant (clear_current_tenant w) t, []) (Or.inl rfl)
    rw [hP] at this
    exact this
  rw [hr1, cftt_eq]
  have hsel : select_frameworks (clear_current_tenant w2).main fids
      = select_frameworks w.main fids := by rw [clear_current_tenant_main, hmain]
  have hid : (select_frameworks w.main fids).foldl (copy_one_framework of oc)
      (set_current_tenant (clear_current_tenant (clear_current_tenant w2)) t, [])
      = (set_current_tenant (clear_current_tenant (clear_current_tenant w2)) t, []) :=
    process_identity (t := t) of oc _ _ (Or.inl rfl) fun f hf => hpres f hf
  dsimp only
  rw [hsel, hid]
  rfl

/-! ## Claim C2 — distribution is idempotent -/

/-- C2: for every starting state, tenant slug, framework selection, and
(deterministic) pattern of per-item create failures, running
`copy_framework_templates_to_tenant` twice with the same arguments leaves
exactly the end-state of the single run — the second run creates zero new
`CompanyFramework` and zero new `CompanyControl` rows (its state is
unchanged) and returns the empty list. -/
theorem C2_distribution_idempotent :
    ∀ (w : World) (t : String) (fids : Option (List Nat))
      (of : Framework → Bool) (oc : Control → Bool),
      (copy_framework_templates_to_tenant
          (copy_framework_templates_to_tenant w t fids of oc).world t fids of oc).world
        = (copy_framework_templates_to_tenant w t fids of oc).world ∧
      (copy_framework_templates_to_tenant
          (copy_framework_templates_to_tenant w t fids of oc).world t fids of oc).copied_frameworks
        = [] := by
  intro w t fids of oc
  rw [distribute_twice w t fids of oc]
  exact ⟨rfl, rfl⟩

/-! ### Counting the report entries (for the amended C3). -/

theorem copy_one_framework_count {t : String} (of : Framework → Bool) (oc : Control → Bool)
    (acc : World × List DistEntry) (f : Framework) (hctx : ctx_ok t acc.1.ctx) :
    ((copy_one_framework of oc acc f).2).length
        + ((acc.1.company (tenantAlias t)).company_frameworks).length
      = acc.2.length
        + ((((copy_one_framework of oc acc f).1).company (tenantAlias t)).company_frameworks).length := by
  rcases acc with ⟨w, es⟩
  have hal : db_for_read .company_compliance (get_current_tenant w) = tenantAlias t :=
    db_for_read_company_ctx_ok hctx
  simp only [copy_one_framework, hal]
  split
  · rfl
  · split
    · rfl
    · rw [copy_framework_controls_cfws]
      simp [World.setCompany]
      omega

theorem process_count {t : String} (of : Framework → Bool) (oc : Control → Bool) :
    ∀ (fs : List Framework) (acc : World × List DistEntry), ctx_ok t acc.1.ctx →
      ((fs.foldl (copy_one_framework of oc) acc).2).length
          + ((acc.1.company (tenantAlias t)).company_frameworks).length
        = acc.2.length
          + ((((fs.foldl (copy_one_framework of oc) acc).1).company
                (tenantAlias t)).company_frameworks).length := by
  intro fs
  induction fs with
  | nil => intro acc _; rfl
  | cons g gs ih =>
    intro acc hctx
    rw [List.foldl_cons]
    have h1 := copy_one_framework_count of oc acc g hctx
    have h2 := ih (copy_one_framework of oc acc g) (copy_one_framework_ctx_ok of oc acc g hctx)
    omega

/-! ## Claim C3 — the returned report (amended part) -/

/-- C3 (amended): `copy_framework_templates_to_tenant` returns the list
`copied_frameworks` holding one entry — the created `CompanyFramework`
row and its `controls_copied` count — for each framework newly created in
this run only: its length equals the number of `CompanyFramework` rows the
run added under the tenant's alias, skipped frameworks and frameworks
whose create raised contribute no entry (there are no `skipped`/`error`
fields), and a second run for the same tenant returns the empty list. -/
theorem C3_report_amended :
    ∀ (w : World) (t : String) (fids : Option (List Nat))
      (of : Framework → Bool) (oc : Control → Bool),
      (copy_framework_templates_to_tenant w t fids of oc).copied_frameworks.length
          + ((w.company (tenantAlias t)).company_frameworks).length
        = (((copy_framework_templates_to_tenant w t fids of oc).world.company
              (tenantAlias t)).company_frameworks).length ∧
      (copy_framework_templates_to_tenant
          (copy_framework_templates_to_tenant w t fids of oc).world t fids
          of oc).copied_frameworks = [] := by
  intro w t fids of oc
  constructor
  · have := process_count (t := t) of oc (select_frameworks w.main fids)
      (set_current_tenant (clear_current_tenant w) t, []) (Or.inl rfl)
    simpa [cftt_eq] using this
  · rw [distribute_twice w t fids of oc]

/-! ### A raising item is equivalent to an absent item (for C8). -/

theorem copy_one_control_fail_noop (cf : CompanyFramework) (al : String)
    (oc : Control → Bool) (acc : World × Nat) (tc : Control) (h : oc tc = true) :
    copy_one_control cf al oc acc tc = acc := by
  rcases acc with ⟨w, n⟩
  simp [copy_one_control, h]

theorem copy_one_control_nofail_eq (cf : CompanyFramework) (al : String)
    (oc : Control → Bool) (acc : World × Nat) (tc : Control) (h : oc tc = false) :
    copy_one_control cf al oc acc tc = copy_one_control cf al (fun _ => false) acc tc := by
  rcases acc with ⟨w, n⟩
  simp only [copy_one_control, h]

theorem foldl_ctrl_filter (cf : CompanyFramework) (al : String) (oc : Control → Bool) :
    ∀ (cs : List Control) (acc : World × Nat),
      cs.foldl (copy_one_control cf al oc) acc
        = (cs.filter fun c => !oc c).foldl (copy_one_control cf al (fun _ => false)) acc := by
  intro cs
  induction cs with
  | nil => intro acc; rfl
  | cons c cs ih =>
    intro acc
    rw [List.foldl_cons]
    by_cases h : oc c = true
    · rw [copy_one_control_fail_noop cf al oc acc c h,
        List.filter_cons_of_neg (by simp [h])]
      exact ih acc
    · have h' : oc c = false := by simpa using h
      rw [copy_one_control_nofail_eq cf al oc acc c h',
        List.filter_cons_of_pos (by simp [h']), List.foldl_cons]
      exact ih _

theorem copy_one_framework_fail_noop (of : Framework → Bool) (oc : Control → Bool)
    (acc : World × List DistEntry) (f : Framework) (h : of f = true) :
    copy_one_framework of oc acc f = acc := by
  rcases acc with ⟨w, es⟩
  simp [copy_one_framework, h]

theorem copy_one_framework_nofail_eq (of : Framework → Bool) (oc : Control → Bool)
    (acc : World × List DistEntry) (f : Framework) (h : of f = false) :
    copy_one_framework of oc acc f = copy_one_framework (fun _ => false) oc acc f := by
  rcases acc with ⟨w, es⟩
  simp only [copy_one_framework, h]

theorem foldl_fw_filter (of : Framework → Bool) (oc : Control → Bool) :
    ∀ (fs : List Framework) (acc : World × List DistEntry),
      fs.foldl (copy_one_framework of oc) acc
        = (fs.filter fun f => !of f).foldl (copy_one_framework (fun _ => false) oc) acc := by
  intro fs
  induction fs with
  | nil => intro acc; rfl
  | cons g gs ih =>
    intro acc
    rw [List.foldl_cons]
    by_cases h : of g = true
    · rw [copy_one_framework_fail_noop of oc acc g h,
        List.filter_cons_of_neg (by simp [h])]
      exact ih acc
    · have h' : of g = false := by simpa using h
      rw [copy_one_framework_nofail_eq of oc acc g h',
        List.filter_cons_of_pos (by simp [h']), List.foldl_cons]
      exact ih _

/-! ## Claim C8 — per-item failures do not abort the batch -/

/-- C8: the copy loops with raising items are total (the per-item
`except Exception` turns a raise into a no-op, so no exception leaves
`copy_framework_controls` or `copy_framework_templates_to_tenant`), and a
run in which some creates raise is state-for-state identical to the run
over the list with exactly those items removed: every remaining control
and every remaining framework is still processed with the same effect. -/
theorem C8_per_item_failures_isolated :
    ∀ (cf : CompanyFramework) (al : String) (oc : Control → Bool) (cs : List Control)
      (acc : World × Nat) (of : Framework → Bool) (fs : List Framework)
      (acc2 : World × List DistEntry),
      cs.foldl (copy_one_control cf al oc) acc
        = (cs.filter fun c => !oc c).foldl (copy_one_control cf al (fun _ => false)) acc ∧
      fs.foldl (copy_one_framework of oc) acc2
        = (fs.filter fun f => !of f).foldl (copy_one_framework (fun _ => false) oc) acc2 := by
  intro cf al oc cs acc of fs acc2
  exact ⟨foldl_ctrl_filter cf al oc cs acc, foldl_fw_filter of oc fs acc2⟩

/-! ## Claim C9 — provenance of the copied CompanyControl rows -/

theorem copy_one_control_new (cf : CompanyFramework) (al : String) (oc : Control → Bool)
    (acc : World × Nat) (tc : Control) (a : String) (cc : CompanyControl)
    (h : cc ∈ (((copy_one_control cf al oc acc tc).1).company a).company_controls) :
    cc ∈ ((acc.1.company a).company_controls) ∨
      (cc.template_control_id = tc.id ∧ cc.control_code = tc.control_code ∧
       cc.subcategory_id = none ∧ cc.framework_id = cf.id) := by
  rcases acc with ⟨w, n⟩
  simp only [copy_one_control] at h
  split at h
  · exact Or.inl h
  · split at h
    · exact Or.inl h
    · by_cases ha : a = al
      · subst ha
        rw [setCompany_company] at h
        simp only [List.mem_append, List.mem_singleton] at h
        rcases h with h | h
        · exact Or.inl h
        · subst h
          exact Or.inr ⟨rfl, rfl, rfl, rfl⟩
      · rw [setCompany_company_ne _ _ _ _ ha] at h
        exact Or.inl h

theorem foldl_ctrl_new (cf : CompanyFramework) (al : String) (oc : Control → Bool) :
    ∀ (cs : List Control) (acc : World × Nat) (a : String) (cc : CompanyControl),
      cc ∈ (((cs.foldl (copy_one_control cf al oc) acc).1).company a).company_controls →
      cc ∈ ((acc.1.company a).company_controls) ∨
        ∃ tc, tc ∈ cs ∧
          cc.template_control_id = tc.id ∧ cc.control_code = tc.control_code ∧
          cc.subcategory_id = none ∧ cc.framework_id = cf.id := by
  intro cs
  induction cs with
  | nil => intro acc a cc h; exact Or.inl h
  | cons c cs ih =>
    intro acc a cc h
    rw [List.foldl_cons] at h
    rcases ih _ a cc h with h' | ⟨tc, htc, hr⟩
    · rcases copy_one_control_new cf al oc acc c a cc h' with h'' | h''
      · exact Or.inl h''
      · exact Or.inr ⟨c, List.mem_cons_self c cs, h''⟩
    · exact Or.inr ⟨tc, List.mem_cons_of_mem c htc, hr⟩

/-- C9: every `CompanyControl` row that `copy_framework_controls` adds to
any tenant database (any row of the result state that was not there
before) originates from a template Control selected under the given
framework and carries `template_control_id` equal to that Control's id,
the same `control_code`, a null `subcategory` reference (the
Domain/Category/Subcategory levels are flattened away), and a direct
`framework` link to the given `CompanyFramework`. -/
theorem C9_copied_control_fields :
    ∀ (w : World) (fw : Framework) (cf : CompanyFramework) (oc : Control → Bool)
      (a : String) (cc : CompanyControl),
      cc ∈ ((copy_framework_controls w fw cf oc).world.company a).company_controls →
      cc ∈ ((w.company a).company_controls) ∨
        ∃ tc, tc ∈ template_controls_for w.main fw ∧
          cc.template_control_id = tc.id ∧ cc.control_code = tc.control_code ∧
          cc.subcategory_id = none ∧ cc.framework_id = cf.id := by
  intro w fw cf oc a cc h
  simp only [copy_framework_controls] at h
  rcases foldl_ctrl_new cf _ oc _ _ a cc h with h' | h'
  · simp only [restore_tenant_company, clear_current_tenant_company] at h'
    exact Or.inl h'
  · exact Or.inr h'

def dom1 : Domain := { id := 1, framework_id := 1 }

def cat1 : Category := { id := 1, domain_id := 1 }

def sub1 : Subcategory := { id := 1, category_id := 1 }

def ctl1 : Control :=
  { id := 7, subcategory_id := 1, control_code := "AC-001", title := "Access review",
    description := "d", objective := "o", control_type := "PREVENTIVE",
    frequency := "MONTHLY", risk_level := "MEDIUM", sort_order := 1, is_active := true }

def mainDB2 : MainDB :=
  { frameworks := [fwSOX2024], domains := [dom1], categories := [cat1],
    subcategories := [sub1], controls := [ctl1] }

def wC9 : World :=
  { main := mainDB2, company := fun _ => TenantDB.empty, ctx := some ("techcorp") }

/-- The row the copy path creates for `ctl1` in `wC9`. -/
def ccAC001 : CompanyControl :=
  { id := 1, framework_id := 1, subcategory_id := none, template_control_id := 7,
    control_code := "AC-001", title := "Access review", description := "d",
    objective := "o", control_type := "PREVENTIVE", frequency := "MONTHLY",
    risk_level := "MEDIUM", sort_order := 1 }

/-- Witness for C9: a concrete run in tenant "techcorp" creates exactly
the flattened copy of Control "AC-001", and the theorem applies to it. -/
theorem C9_copied_control_fields_witness :
    ccAC001 ∈ ((copy_framework_controls wC9 fwSOX2024 cfSOX
        noFailCtrl).world.company ("techcorp_compliance_db")).company_controls ∧
    (ccAC001 ∈ ((wC9.company ("techcorp_compliance_db")).company_controls) ∨
      ∃ tc, tc ∈ template_controls_for wC9.main fwSOX2024 ∧
        ccAC001.template_control_id = tc.id ∧ ccAC001.control_code = tc.control_code ∧
        ccAC001.subcategory_id = none ∧ ccAC001.framework_id = cfSOX.id) :=
  ⟨by decide,
   C9_copied_control_fields wC9 fwSOX2024 cfSOX noFailCtrl ("techcorp_compliance_db") ccAC001
     (by decide)⟩

end NorthStar
